import Mathlib

/-!
Verification of the hotel booking backend (`src/main.py`, `src/schemas.py`).

Shallow embedding conventions:
* `datetime` values are modelled as `Int` timestamps at one-second granularity
  (totally ordered, as Mongo/Python datetime comparison is).
* Calendar dates are modelled as `Int` day ordinals (Python `date.toordinal()`);
  midnight of day `d` is the timestamp `d * 86400` and `23:59:59` of day `d`
  is `d * 86400 + 86399`.
* The Mongo collection `db["booking"]` is modelled as a `Store`: the list of
  booking documents plus a counter supplying fresh identifiers.
* `HTTPException(status_code, detail)` raised by a route is modelled as the
  `Except.error` branch carrying an `HTTPExc`; routes return the (possibly
  updated) store explicitly.
* `database.py` (the `create_document` helper and the connection setup) is not
  part of the sources; it is modelled from the spec where marked.
-/

set_option autoImplicit false

namespace Hotel

/-- A room-catalog entry (`ROOM_TYPES` items in `main.py` / `Room` in
`schemas.py`). -/
structure RoomType where
  type : String
  price : Int
  beds : Int
  capacity : Int
  amenities : List String
  images : List String
  deriving DecidableEq, Repr

/-- The static room catalog `ROOM_TYPES` from `main.py`. -/
def ROOM_TYPES : List RoomType :=
  [ { type := "Deluxe", price := 180, beds := 1, capacity := 2,
      amenities := ["King Bed", "City View", "Breakfast", "Wi-Fi"],
      images := ["https://images.unsplash.com/photo-1542314831-068cd1dbfeeb?q=80&w=1600&auto=format&fit=crop"] },
    { type := "Executive", price := 260, beds := 2, capacity := 3,
      amenities := ["King Bed", "Lounge Access", "Workspace", "Wi-Fi"],
      images := ["https://images.unsplash.com/photo-1528909514045-2fa4ac7a08ba?q=80&w=1600&auto=format&fit=crop"] },
    { type := "Royal Suite", price := 480, beds := 2, capacity := 4,
      amenities := ["2 Bedrooms", "Panoramic View", "Butler Service", "Jacuzzi"],
      images := ["https://images.unsplash.com/photo-1505691723518-36a5ac3b2d52?q=80&w=1600&auto=format&fit=crop"] } ]

/-- A persisted booking document in the `booking` collection.  The request
fields are those of the `data` dict built in `book`; `created_at` and the
store-assigned identifier `_id` are added on insert (see `create_document`). -/
structure BookingDoc where
  customer_name : String
  customer_email : String
  room_type : String
  guests : Int
  check_in : Int
  check_out : Int
  payment_method : String
  status : String
  created_at : Int
  _id : Nat
  deriving DecidableEq, Repr

/-- The `booking` collection together with the supply of fresh identifiers. -/
structure Store where
  bookings : List BookingDoc
  nextId : Nat
  deriving DecidableEq, Repr

/-- The request body of `POST /book` (`BookingRequest` in `main.py`).
Note: `guests` carries no `ge=1` constraint in `main.py`, unlike
`schemas.Booking` and `AvailabilityRequest`. -/
structure BookingRequest where
  customer_name : String
  customer_email : String
  room_type : String
  guests : Int
  check_in : Int
  check_out : Int
  payment_method : Option String
  deriving DecidableEq, Repr

/-- The response of `POST /book` (`BookingResponse` in `main.py`). -/
structure BookingResponse where
  booking_id : String
  status : String
  deriving DecidableEq, Repr

/-- The JSON object returned by `GET /availability`: `reason` is present only
on the capacity branch. -/
structure AvailResp where
  available : Bool
  reason : Option String
  deriving DecidableEq, Repr

/-- The JSON object returned by `POST /pay` on success. -/
structure PayResp where
  status : String
  booking_id : String
  method : String
  deriving DecidableEq, Repr

/-- An `HTTPException(status_code=..., detail=...)`. -/
structure HTTPExc where
  status_code : Nat
  detail : String
  deriving DecidableEq, Repr

def invalidDateRange : HTTPExc := ⟨400, "Check-out must be after check-in"⟩
def roomNotFound : HTTPExc := ⟨404, "Room type not found"⟩
def exceedsCapacity : HTTPExc := ⟨400, "Exceeds room capacity"⟩
def datesNotAvailable : HTTPExc := ⟨409, "Selected dates not available"⟩
def invalidBookingId : HTTPExc := ⟨400, "Invalid booking id"⟩
def bookingNotFound : HTTPExc := ⟨404, "Booking not found"⟩

/-- Python `str.lower()` (ASCII letters; the catalog identifiers are ASCII). -/
def lower (s : String) : String := ⟨s.data.map Char.toLower⟩

/-- Case-insensitive room-catalog lookup:
`next((r for r in ROOM_TYPES if r["type"].lower() == room_type.lower()), None)`. -/
def findRoom (room_type : String) : Option RoomType :=
  ROOM_TYPES.find? (fun r => lower r.type == lower room_type)

/-- `is_available` from `main.py`: count documents of the `booking` collection
whose `room_type` equals the argument and which satisfy
`check_in < check_out_req && check_out > check_in_req`; available iff the
count is zero.  No status filter appears in the query. -/
def is_available (st : Store) (room_type : String) (check_in check_out : Int) : Bool :=
  (st.bookings.filter (fun b =>
      b.room_type == room_type
        && decide (b.check_in < check_out)
        && decide (b.check_out > check_in))).length == 0

/-- `GET /availability` after date parsing (`datetime.fromisoformat` is the
framework boundary; the route is modelled on the parsed timestamps). -/
def availability (room_type : String) (check_in check_out : Int) (guests : Int)
    (st : Store) : Except HTTPExc AvailResp :=
  if check_in ≥ check_out then
    .error invalidDateRange
  else
    match findRoom room_type with
    | none => .error roomNotFound
    | some room =>
      if guests > room.capacity then
        .ok { available := false, reason := some "Exceeds capacity" }
      else
        .ok { available := is_available st room.type check_in check_out, reason := none }

/-- The `data` dict built in `book` before it is handed to `create_document`;
`payment_method` is `body.payment_method or "Pending"` (Python truthiness:
`None` and the empty string both fall back to `"Pending"`). -/
def orPending : Option String → String
  | none => "Pending"
  | some s => if s = "" then "Pending" else s

/-- Modelled from the spec: `create_document(collection, data)` is defined in
`database.py`, which is not among the sources; per the spec the store assigns
a unique identifier on insert and sets the creation timestamp to the current
time, returning the identifier. -/
def create_document (st : Store) (now : Int) (doc : Int → Nat → BookingDoc) : Store × Nat :=
  (⟨st.bookings ++ [doc now st.nextId], st.nextId + 1⟩, st.nextId)

/-- The booking document persisted by `book` for request `body` resolved to
catalog entry `room`: the `data` dict of `main.py` plus the insert-time fields. -/
def newBookingDoc (body : BookingRequest) (room : RoomType) (now : Int) (id : Nat) :
    BookingDoc :=
  { customer_name := body.customer_name
    customer_email := body.customer_email
    room_type := room.type
    guests := body.guests
    check_in := body.check_in
    check_out := body.check_out
    payment_method := orPending body.payment_method
    status := "Booked"
    created_at := now
    _id := id }

/-- `POST /book` from `main.py`: validate date order, resolve the room type
case-insensitively, check capacity, check availability, then insert. -/
def book (body : BookingRequest) (now : Int) (st : Store) :
    Except HTTPExc BookingResponse × Store :=
  if body.check_in ≥ body.check_out then
    (.error invalidDateRange, st)
  else
    match findRoom body.room_type with
    | none => (.error roomNotFound, st)
    | some room =>
      if body.guests > room.capacity then
        (.error exceedsCapacity, st)
      else if is_available st room.type body.check_in body.check_out = false then
        (.error datesNotAvailable, st)
      else
        let r := create_document st now (newBookingDoc body room)
        (.ok { booking_id := toString r.2, status := "Booked" }, r.1)

/-- Syntactic validity of a `bson.ObjectId` string: 24 hexadecimal characters. -/
def isHexDigit (c : Char) : Bool :=
  c.isDigit || (decide ('a' ≤ c) && decide (c ≤ 'f')) || (decide ('A' ≤ c) && decide (c ≤ 'F'))

def isValidObjectId (s : String) : Bool :=
  s.length == 24 && s.toList.all isHexDigit

/-- The store identifier denoted by a syntactically valid ObjectId string. -/
def objectIdVal (s : String) : Nat :=
  s.toList.foldl (fun a c =>
    a * 16 + (if c.isDigit then c.toNat - 48
              else if decide ('a' ≤ c) && decide (c ≤ 'f') then c.toNat - 87
              else c.toNat - 55)) 0

/-- `db["booking"].update_one({"_id": oid}, {"$set": {"payment_method": method,
"status": "Paid"}})`: update the first document matching the identifier and
report the matched count (0 or 1). -/
def update_one : List BookingDoc → Nat → String → List BookingDoc × Nat
  | [], _, _ => ([], 0)
  | b :: rest, oid, method =>
    if b._id = oid then
      ({ b with payment_method := method, status := "Paid" } :: rest, 1)
    else
      let r := update_one rest oid method
      (b :: r.1, r.2)

/-- `POST /pay` from `main.py`: parse the booking identifier, run the update,
and report not-found when the update matched nothing. -/
def pay (method booking_id : String) (st : Store) : Except HTTPExc PayResp × Store :=
  if isValidObjectId booking_id then
    let r := update_one st.bookings (objectIdVal booking_id) method
    if r.2 = 0 then
      (.error bookingNotFound, ⟨r.1, st.nextId⟩)
    else
      (.ok { status := "Paid", booking_id := booking_id, method := method }, ⟨r.1, st.nextId⟩)
  else
    (.error invalidBookingId, st)

/-- One entry of the dashboard line chart: a day ordinal and the bookings
created that day. -/
structure ChartEntry where
  date : Int
  bookings : Nat
  deriving DecidableEq, Repr

/-- Midnight of day `d`: `datetime(day.year, day.month, day.day)`. -/
def dayStartTs (d : Int) : Int := d * 86400

/-- `datetime(day.year, day.month, day.day, 23, 59, 59)` at one-second
granularity. -/
def dayEndTs (d : Int) : Int := d * 86400 + 86399

/-- The per-day count of the dashboard loop:
`db["booking"].count_documents({"created_at": {"$gte": start, "$lte": end}})`. -/
def chartCount (st : Store) (day : Int) : Nat :=
  (st.bookings.filter (fun b =>
      decide (dayStartTs day ≤ b.created_at)
        && decide (b.created_at ≤ dayEndTs day))).length

/-- The trailing-7-day chart loop of `GET /dashboard`: for `i` in `range(7)`
the day is `today - (6 - i)` and the count is over
`created_at ∈ [start, end]`. -/
def chart (st : Store) (today : Int) : List ChartEntry :=
  (List.range 7).map (fun i =>
    let day : Int := today - ((6 - i : Nat) : Int)
    { date := day, bookings := chartCount st day })

/-! ### Helper lemmas -/

/-- The availability check, characterised as a predicate over the stored
bookings. -/
theorem is_available_iff (st : Store) (R : String) (ci co : Int) :
    is_available st R ci co = true ↔
      ∀ b ∈ st.bookings, b.room_type = R → ¬(b.check_in < co ∧ b.check_out > ci) := by
  unfold is_available
  rw [beq_iff_eq, List.length_eq_zero, List.filter_eq_nil_iff]
  constructor
  · intro h b hb hR hconf
    exact h b hb (by simp [hR, hconf.1, hconf.2])
  · intro h b hb hp
    simp only [Bool.and_eq_true, beq_iff_eq, decide_eq_true_eq] at hp
    exact h b hb hp.1.1 ⟨hp.1.2, hp.2⟩

/-- `book` fails on an unordered date range, leaving the store untouched. -/
theorem book_invalid_date (body : BookingRequest) (now : Int) (st : Store)
    (h : body.check_in ≥ body.check_out) :
    book body now st = (.error invalidDateRange, st) := by
  unfold book
  rw [if_pos h]

/-- `book` fails when the room type resolves to no catalog entry. -/
theorem book_room_not_found (body : BookingRequest) (now : Int) (st : Store)
    (h1 : body.check_in < body.check_out) (h2 : findRoom body.room_type = none) :
    book body now st = (.error roomNotFound, st) := by
  simp only [book, h2]
  rw [if_neg (not_le.mpr h1)]

/-- `book` fails on a capacity overflow, with no availability check involved. -/
theorem book_capacity_exceeded (body : BookingRequest) (now : Int) (st : Store)
    (room : RoomType) (h1 : body.check_in < body.check_out)
    (h2 : findRoom body.room_type = some room) (h3 : body.guests > room.capacity) :
    book body now st = (.error exceedsCapacity, st) := by
  simp only [book, h2]
  rw [if_neg (not_le.mpr h1), if_pos h3]

/-- `book` fails when the availability check reports a conflict. -/
theorem book_date_conflict (body : BookingRequest) (now : Int) (st : Store)
    (room : RoomType) (h1 : body.check_in < body.check_out)
    (h2 : findRoom body.room_type = some room) (h3 : body.guests ≤ room.capacity)
    (h4 : is_available st room.type body.check_in body.check_out = false) :
    book body now st = (.error datesNotAvailable, st) := by
  simp only [book, h2]
  rw [if_neg (not_le.mpr h1), if_neg (not_lt.mpr h3), if_pos h4]

/-- The success equation of `book`: all four validations pass, one document is
appended and the fresh identifier is returned. -/
theorem book_ok (body : BookingRequest) (now : Int) (st : Store)
    (room : RoomType) (h1 : body.check_in < body.check_out)
    (h2 : findRoom body.room_type = some room) (h3 : body.guests ≤ room.capacity)
    (h4 : is_available st room.type body.check_in body.check_out = true) :
    book body now st =
      (.ok { booking_id := toString st.nextId, status := "Booked" },
       { bookings := st.bookings ++ [newBookingDoc body room now st.nextId],
         nextId := st.nextId + 1 }) := by
  simp only [book, h2, create_document]
  rw [if_neg (not_le.mpr h1), if_neg (not_lt.mpr h3), if_neg (by simp [h4])]

/-- `update_one` reports a zero matched count on a list with no matching
identifier, leaving the list unchanged. -/
theorem update_one_no_match (l : List BookingDoc) (oid : Nat) (m : String)
    (h : ∀ b ∈ l, b._id ≠ oid) : update_one l oid m = (l, 0) := by
  induction l with
  | nil => rfl
  | cons b rest ih =>
    simp only [update_one, if_neg (h b (List.mem_cons_self b rest))]
    rw [ih (fun x hx => h x (List.mem_cons_of_mem b hx))]

/-- `update_one` rewrites exactly the first matching document. -/
theorem update_one_match (pre post : List BookingDoc) (b : BookingDoc)
    (oid : Nat) (m : String)
    (hpre : ∀ x ∈ pre, x._id ≠ oid) (hb : b._id = oid) :
    update_one (pre ++ b :: post) oid m =
      (pre ++ { b with payment_method := m, status := "Paid" } :: post, 1) := by
  induction pre with
  | nil => simp [update_one, hb]
  | cons x rest ih =>
    simp only [List.cons_append, update_one,
      if_neg (hpre x (List.mem_cons_self x rest)), List.append_eq]
    rw [ih (fun y hy => hpre y (List.mem_cons_of_mem x hy))]

/-- A zero matched count means `update_one` changed nothing. -/
theorem update_one_matched_zero (l : List BookingDoc) (oid : Nat) (m : String)
    (h : (update_one l oid m).2 = 0) : (update_one l oid m).1 = l := by
  induction l with
  | nil => rfl
  | cons b rest ih =>
    by_cases hb : b._id = oid
    · simp [update_one, hb] at h
    · simp only [update_one, if_neg hb] at h ⊢
      rw [ih h]

/-- A nonzero matched count means `update_one` rewrote exactly one document:
the one at some index whose identifier matches. -/
theorem update_one_matched_set (l : List BookingDoc) (oid : Nat) (m : String)
    (h : (update_one l oid m).2 ≠ 0) :
    ∃ (i : Nat) (hi : i < l.length),
      (l.get ⟨i, hi⟩)._id = oid ∧
      (update_one l oid m).1 =
        l.set i { l.get ⟨i, hi⟩ with payment_method := m, status := "Paid" } := by
  induction l with
  | nil => simp [update_one] at h
  | cons b rest ih =>
    by_cases hb : b._id = oid
    · exact ⟨0, Nat.succ_pos _, hb, by simp [update_one, hb]⟩
    · simp only [update_one, if_neg hb] at h ⊢
      obtain ⟨i, hi, h1, h2⟩ := ih h
      exact ⟨i + 1, Nat.succ_lt_succ hi, h1, by simp [h2]⟩

/-! ### Claims -/

/-- C1: `isAvailable(R, checkIn, checkOut)` returns true iff no stored booking
for room type `R` satisfies `existing.check_in < checkOut` and
`existing.check_out > checkIn`; in particular an existing booking ending
exactly at the requested check-in (back-to-back) leaves the range available. -/
theorem c1_overlap_characterisation (st : Store) (R : String) (ci co : Int)
    (_h : ci < co) :
    (is_available st R ci co = true ↔
      ∀ b ∈ st.bookings, b.room_type = R → ¬(b.check_in < co ∧ b.check_out > ci)) ∧
    (∀ b : BookingDoc, b.room_type = R → b.check_out = ci →
      ∀ n : Nat, is_available ⟨[b], n⟩ R ci co = true) := by
  refine ⟨is_available_iff st R ci co, ?_⟩
  intro b hR hco n
  rw [is_available_iff]
  intro b' hb' _ hconf
  simp only [List.mem_singleton] at hb'
  subst hb'
  exact absurd (hco ▸ hconf.2) (lt_irrefl ci)

theorem c1_overlap_characterisation_witness :
    (0 : Int) < 2 ∧
      ((is_available ⟨[], 0⟩ "Deluxe" 0 2 = true ↔
        ∀ b ∈ (⟨[], 0⟩ : Store).bookings, b.room_type = "Deluxe" →
          ¬(b.check_in < 2 ∧ b.check_out > 0)) ∧
      (∀ b : BookingDoc, b.room_type = "Deluxe" → b.check_out = 0 →
        ∀ n : Nat, is_available ⟨[b], n⟩ "Deluxe" 0 2 = true)) :=
  ⟨by decide, c1_overlap_characterisation ⟨[], 0⟩ "Deluxe" 0 2 (by decide)⟩

/-- C2: the conflict query filters only on room type and date overlap, never
on status: any stored overlapping booking — its `status` field is arbitrary,
so in particular a Cancelled one — forces `isAvailable` to return false. -/
theorem c2_no_status_filter (st : Store) (b : BookingDoc) (R : String)
    (ci co : Int) (hb : b ∈ st.bookings) (hR : b.room_type = R)
    (h1 : b.check_in < co) (h2 : b.check_out > ci) :
    is_available st R ci co = false := by
  rw [Bool.eq_false_iff]
  intro h
  rw [is_available_iff] at h
  exact h b hb hR ⟨h1, h2⟩

theorem c2_no_status_filter_witness :
    is_available
      ⟨[{ customer_name := "A", customer_email := "a@b.c", room_type := "Deluxe",
          guests := 1, check_in := 0, check_out := 5, payment_method := "Card",
          status := "Cancelled", created_at := 0, _id := 0 }], 1⟩
      "Deluxe" 3 9 = false :=
  c2_no_status_filter _ _ _ 3 9 (List.mem_singleton.mpr rfl) rfl
    (by decide) (by decide)

/-- C3: `createBooking` validates in short-circuit order — unordered dates
give InvalidDateRange (for every store, i.e. with no store access and the
store returned untouched); then an unresolvable room type gives
UnknownRoomType; then a capacity overflow gives CapacityExceeded with no
availability hypothesis (regardless of date availability); then a failed
availability check gives DateConflict. -/
theorem c3_validation_order :
    (∀ (st : Store) (now : Int) (body : BookingRequest),
      body.check_in ≥ body.check_out →
        book body now st = (.error invalidDateRange, st)) ∧
    (∀ (st : Store) (now : Int) (body : BookingRequest),
      body.check_in < body.check_out → findRoom body.room_type = none →
        book body now st = (.error roomNotFound, st)) ∧
    (∀ (st : Store) (now : Int) (body : BookingRequest) (room : RoomType),
      body.check_in < body.check_out → findRoom body.room_type = some room →
      body.guests > room.capacity →
        book body now st = (.error exceedsCapacity, st)) ∧
    (∀ (st : Store) (now : Int) (body : BookingRequest) (room : RoomType),
      body.check_in < body.check_out → findRoom body.room_type = some room →
      body.guests ≤ room.capacity →
      is_available st room.type body.check_in body.check_out = false →
        book body now st = (.error datesNotAvailable, st)) :=
  ⟨fun st now body h => book_invalid_date body now st h,
   fun st now body h1 h2 => book_room_not_found body now st h1 h2,
   fun st now body room h1 h2 h3 => book_capacity_exceeded body now st room h1 h2 h3,
   fun st now body room h1 h2 h3 h4 => book_date_conflict body now st room h1 h2 h3 h4⟩

theorem c3_validation_order_witness :
    (book { customer_name := "A", customer_email := "a@b.c", room_type := "Deluxe",
            guests := 1, check_in := 5, check_out := 5, payment_method := none }
        0 ⟨[], 0⟩ = (.error invalidDateRange, ⟨[], 0⟩)) ∧
    (book { customer_name := "A", customer_email := "a@b.c", room_type := "Penthouse",
            guests := 1, check_in := 0, check_out := 5, payment_method := none }
        0 ⟨[], 0⟩ = (.error roomNotFound, ⟨[], 0⟩)) ∧
    (book { customer_name := "A", customer_email := "a@b.c", room_type := "Deluxe",
            guests := 3, check_in := 0, check_out := 5, payment_method := none }
        0 ⟨[], 0⟩ = (.error exceedsCapacity, ⟨[], 0⟩)) ∧
    (book { customer_name := "A", customer_email := "a@b.c", room_type := "Deluxe",
            guests := 2, check_in := 0, check_out := 5, payment_method := none }
        0 ⟨[{ customer_name := "B", customer_email := "b@b.c", room_type := "Deluxe",
              guests := 1, check_in := 2, check_out := 7, payment_method := "Pending",
              status := "Booked", created_at := 0, _id := 0 }], 1⟩ =
      (.error datesNotAvailable,
       ⟨[{ customer_name := "B", customer_email := "b@b.c", room_type := "Deluxe",
           guests := 1, check_in := 2, check_out := 7, payment_method := "Pending",
           status := "Booked", created_at := 0, _id := 0 }], 1⟩)) :=
  ⟨c3_validation_order.1 _ 0 _ (by decide),
   c3_validation_order.2.1 _ 0 _ (by decide) (by decide),
   c3_validation_order.2.2.1 _ 0 _ (ROOM_TYPES.get ⟨0, by decide⟩) (by decide)
     (by decide) (by decide),
   c3_validation_order.2.2.2 _ 0 _ (ROOM_TYPES.get ⟨0, by decide⟩) (by decide)
     (by decide) (by decide) (by decide)⟩

/-- C4 counterexample: a request that *provides* a payment method — the empty
string — is persisted with `payment_method = "Pending"`, not with the
provided value, because `body.payment_method or "Pending"` tests Python
truthiness rather than presence. -/
theorem c4_counterexample :
    ((book { customer_name := "A", customer_email := "a@b.c", room_type := "Deluxe",
             guests := 1, check_in := 0, check_out := 1, payment_method := some "" }
        0 ⟨[], 0⟩).2.bookings.map (fun b => b.payment_method) = ["Pending"]) ∧
    some "" ≠ (none : Option String) ∧ ("Pending" : String) ≠ "" := by
  refine ⟨?_, by decide, by decide⟩
  rfl

/-- C4 (amended): for every request passing all four validations,
`createBooking` persists exactly one Booking with status `"Booked"`, creation
timestamp `now`, and `payment_method` equal to the request's payment method
when that is provided *and non-empty*, and `"Pending"` when it is absent or
empty; it returns the store-assigned identifier with status `"Booked"`. -/
theorem c4_success_persists (body : BookingRequest) (now : Int) (st : Store)
    (room : RoomType) (h1 : body.check_in < body.check_out)
    (h2 : findRoom body.room_type = some room) (h3 : body.guests ≤ room.capacity)
    (h4 : is_available st room.type body.check_in body.check_out = true) :
    book body now st =
      (.ok { booking_id := toString st.nextId, status := "Booked" },
       { bookings := st.bookings ++
           [{ customer_name := body.customer_name
              customer_email := body.customer_email
              room_type := room.type
              guests := body.guests
              check_in := body.check_in
              check_out := body.check_out
              payment_method := orPending body.payment_method
              status := "Booked"
              created_at := now
              _id := st.nextId }],
         nextId := st.nextId + 1 }) ∧
    (∀ s : String, s ≠ "" → orPending (some s) = s) ∧
    orPending none = "Pending" ∧ orPending (some "") = "Pending" :=
  ⟨book_ok body now st room h1 h2 h3 h4,
   fun s hs => by simp [orPending, hs],
   rfl, rfl⟩

theorem c4_success_persists_witness :
    (book { customer_name := "A", customer_email := "a@b.c", room_type := "Deluxe",
            guests := 2, check_in := 0, check_out := 5, payment_method := some "Card" }
        7 ⟨[], 4⟩ =
      (.ok { booking_id := "4", status := "Booked" },
       { bookings :=
           [{ customer_name := "A", customer_email := "a@b.c", room_type := "Deluxe",
              guests := 2, check_in := 0, check_out := 5, payment_method := "Card",
              status := "Booked", created_at := 7, _id := 4 }],
         nextId := 5 }) ∧
    (∀ s : String, s ≠ "" → orPending (some s) = s) ∧
    orPending none = "Pending" ∧ orPending (some "") = "Pending") :=
  c4_success_persists _ 7 ⟨[], 4⟩ (ROOM_TYPES.get ⟨0, by decide⟩)
    (by decide) (by decide) (by decide) (by decide)

/-- C5: `confirmPayment` fails with InvalidIdentifier on a malformed
identifier, fails with the distinct error BookingNotFound when no stored
booking matches a well-formed identifier, and otherwise unconditionally sets
the first matching booking's `payment_method` to the given method and its
`status` to `"Paid"` — the matched booking's prior status is arbitrary, so
already-Paid or Cancelled bookings transition too. -/
theorem c5_confirm_payment :
    (∀ (st : Store) (method booking_id : String),
      isValidObjectId booking_id = false →
        pay method booking_id st = (.error invalidBookingId, st)) ∧
    (∀ (st : Store) (method booking_id : String),
      isValidObjectId booking_id = true →
      (∀ b ∈ st.bookings, b._id ≠ objectIdVal booking_id) →
        pay method booking_id st = (.error bookingNotFound, st)) ∧
    (∀ (st : Store) (method booking_id : String) (pre post : List BookingDoc)
        (b : BookingDoc),
      isValidObjectId booking_id = true →
      st.bookings = pre ++ b :: post →
      (∀ x ∈ pre, x._id ≠ objectIdVal booking_id) →
      b._id = objectIdVal booking_id →
        pay method booking_id st =
          (.ok { status := "Paid", booking_id := booking_id, method := method },
           ⟨pre ++ { b with payment_method := method, status := "Paid" } :: post,
            st.nextId⟩)) ∧
    invalidBookingId ≠ bookingNotFound := by
  refine ⟨?_, ?_, ?_, by decide⟩
  · intro st method booking_id h
    simp [pay, h]
  · intro st method booking_id hv h
    simp only [pay, hv, if_true, update_one_no_match st.bookings _ method h]
  · intro st method booking_id pre post b hv hst hpre hb
    simp only [pay, hv, if_true, hst,
      update_one_match pre post b _ method hpre hb]
    simp

theorem c5_confirm_payment_witness :
    (pay "Card" "zz" ⟨[], 0⟩ = (.error invalidBookingId, ⟨[], 0⟩)) ∧
    (pay "Card" "000000000000000000000000" ⟨[], 0⟩ =
      (.error bookingNotFound, ⟨[], 0⟩)) ∧
    (pay "Card" "000000000000000000000000"
        ⟨[{ customer_name := "A", customer_email := "a@b.c", room_type := "Deluxe",
            guests := 1, check_in := 0, check_out := 1, payment_method := "Pending",
            status := "Cancelled", created_at := 0, _id := 0 }], 1⟩ =
      (.ok { status := "Paid", booking_id := "000000000000000000000000",
             method := "Card" },
       ⟨[{ customer_name := "A", customer_email := "a@b.c", room_type := "Deluxe",
           guests := 1, check_in := 0, check_out := 1, payment_method := "Card",
           status := "Paid", created_at := 0, _id := 0 }], 1⟩)) ∧
    invalidBookingId ≠ bookingNotFound :=
  ⟨c5_confirm_payment.1 ⟨[], 0⟩ "Card" "zz" (by decide),
   c5_confirm_payment.2.1 ⟨[], 0⟩ "Card" "000000000000000000000000" (by decide)
     (by decide),
   c5_confirm_payment.2.2.1 _ "Card" "000000000000000000000000" [] []
     { customer_name := "A", customer_email := "a@b.c", room_type := "Deluxe",
       guests := 1, check_in := 0, check_out := 1, payment_method := "Pending",
       status := "Cancelled", created_at := 0, _id := 0 }
     (by decide) rfl (by decide) (by decide),
   c5_confirm_payment.2.2.2⟩

/-- The chart written out: seven entries, one per day from `today - 6` up to
`today`. -/
theorem chart_eq (st : Store) (today : Int) :
    chart st today =
      [ { date := today - 6, bookings := chartCount st (today - 6) },
        { date := today - 5, bookings := chartCount st (today - 5) },
        { date := today - 4, bookings := chartCount st (today - 4) },
        { date := today - 3, bookings := chartCount st (today - 3) },
        { date := today - 2, bookings := chartCount st (today - 2) },
        { date := today - 1, bookings := chartCount st (today - 1) },
        { date := today, bookings := chartCount st today } ] := by
  have hr : List.range 7 = [0, 1, 2, 3, 4, 5, 6] := by decide
  simp only [chart, hr, List.map_cons, List.map_nil]
  norm_num

/-- C6: `trailingChart(7)` always returns exactly 7 entries, one per trailing
UTC calendar day oldest first, with dates increasing by one day, the last
entry equal to today, and each count being the number of bookings whose
creation timestamp lies in `[00:00:00, 23:59:59]` of that day. -/
theorem c6_trailing_chart (st : Store) (today : Int) :
    (chart st today).length = 7 ∧
    (∀ i : Nat, i < 7 →
      ((chart st today).getD i ⟨0, 0⟩).date = today - 6 + (i : Int) ∧
      ((chart st today).getD i ⟨0, 0⟩).bookings =
        (st.bookings.filter (fun b =>
            decide (dayStartTs ((chart st today).getD i ⟨0, 0⟩).date ≤ b.created_at)
              && decide (b.created_at ≤
                    dayEndTs ((chart st today).getD i ⟨0, 0⟩).date))).length) ∧
    ((chart st today).getD 6 ⟨0, 0⟩).date = today := by
  rw [chart_eq]
  refine ⟨rfl, ?_, ?_⟩
  · intro i hi
    interval_cases i <;>
      refine ⟨?_, rfl⟩ <;>
      simp only [List.getD_cons_zero, List.getD_cons_succ] <;>
      push_cast <;> ring
  · rfl

theorem c6_trailing_chart_witness :
    (0 : Nat) < 7 ∧
      ((chart ⟨[], 0⟩ 10).getD 0 ⟨0, 0⟩).date = 10 - 6 + ((0 : Nat) : Int) :=
  ⟨by decide, ((c6_trailing_chart ⟨[], 0⟩ 10).2.1 0 (by decide)).1⟩

/-- The `ge=1` lower bound declared for `guests` by `schemas.Booking` (and by
`AvailabilityRequest` in `main.py`); `BookingRequest` in `main.py` omits it. -/
def schemaGuestsLowerBound (g : Int) : Bool := decide (1 ≤ g)

/-- C7: the guest-count invariant fails in the code — `BookingRequest` in
`main.py` carries no `ge=1` bound, `book` only checks `guests > capacity`,
and the insert bypasses `schemas.Booking` — so a zero-guest request is
accepted and persisted with `guests = 0`, violating the bound that
`schemas.Booking` itself declares. -/
theorem c7_zero_guests_persisted :
    ((book { customer_name := "A", customer_email := "a@b.c", room_type := "Deluxe",
             guests := 0, check_in := 0, check_out := 1, payment_method := none }
        0 ⟨[], 0⟩).1 = .ok { booking_id := "0", status := "Booked" }) ∧
    ((book { customer_name := "A", customer_email := "a@b.c", room_type := "Deluxe",
             guests := 0, check_in := 0, check_out := 1, payment_method := none }
        0 ⟨[], 0⟩).2.bookings.map (fun b => b.guests) = [0]) ∧
    schemaGuestsLowerBound 0 = false :=
  ⟨rfl, rfl, rfl⟩

/-- C8: every operation is atomic over the store — `book` either appends
exactly one document (success) or returns the store untouched (any error),
and `pay` either rewrites exactly one document in place (success) or returns
the store untouched (any error). -/
theorem c8_atomicity :
    (∀ (body : BookingRequest) (now : Int) (st : Store) (e : HTTPExc),
      (book body now st).1 = .error e → (book body now st).2 = st) ∧
    (∀ (body : BookingRequest) (now : Int) (st : Store) (r : BookingResponse),
      (book body now st).1 = .ok r →
        ∃ doc : BookingDoc,
          (book body now st).2.bookings = st.bookings ++ [doc]) ∧
    (∀ (method booking_id : String) (st : Store) (e : HTTPExc),
      (pay method booking_id st).1 = .error e → (pay method booking_id st).2 = st) ∧
    (∀ (method booking_id : String) (st : Store) (r : PayResp),
      (pay method booking_id st).1 = .ok r →
        ∃ (i : Nat) (hi : i < st.bookings.length),
          (st.bookings.get ⟨i, hi⟩)._id = objectIdVal booking_id ∧
          (pay method booking_id st).2 =
            ⟨st.bookings.set i
               { st.bookings.get ⟨i, hi⟩ with
                   payment_method := method, status := "Paid" },
             st.nextId⟩) := by
  refine ⟨?_, ?_, ?_, ?_⟩
  · intro body now st e h
    rcases le_or_lt body.check_out body.check_in with h1 | h1
    · rw [book_invalid_date body now st h1]
    rcases hf : findRoom body.room_type with _ | room
    · rw [book_room_not_found body now st h1 hf]
    rcases lt_or_le room.capacity body.guests with h3 | h3
    · rw [book_capacity_exceeded body now st room h1 hf h3]
    cases hav : is_available st room.type body.check_in body.check_out with
    | false => rw [book_date_conflict body now st room h1 hf h3 hav]
    | true =>
      rw [book_ok body now st room h1 hf h3 hav] at h
      exact absurd h (by simp)
  · intro body now st r h
    rcases le_or_lt body.check_out body.check_in with h1 | h1
    · rw [book_invalid_date body now st h1] at h
      exact absurd h (by simp)
    rcases hf : findRoom body.room_type with _ | room
    · rw [book_room_not_found body now st h1 hf] at h
      exact absurd h (by simp)
    rcases lt_or_le room.capacity body.guests with h3 | h3
    · rw [book_capacity_exceeded body now st room h1 hf h3] at h
      exact absurd h (by simp)
    cases hav : is_available st room.type body.check_in body.check_out with
    | false =>
      rw [book_date_conflict body now st room h1 hf h3 hav] at h
      exact absurd h (by simp)
    | true =>
      rw [book_ok body now st room h1 hf h3 hav]
      exact ⟨newBookingDoc body room now st.nextId, rfl⟩
  · intro method booking_id st e h
    by_cases hv : isValidObjectId booking_id = true
    · simp only [pay, hv, if_true] at h ⊢
      by_cases hm : (update_one st.bookings (objectIdVal booking_id) method).2 = 0
      · simp only [hm, if_pos] at h ⊢
        rw [update_one_matched_zero st.bookings _ method hm]
      · simp [hm] at h
    · rw [Bool.not_eq_true] at hv
      simp [pay, hv]
  · intro method booking_id st r h
    by_cases hv : isValidObjectId booking_id = true
    · simp only [pay, hv, if_true] at h ⊢
      by_cases hm : (update_one st.bookings (objectIdVal booking_id) method).2 = 0
      · simp [hm] at h
      · obtain ⟨i, hi, h1, h2⟩ :=
          update_one_matched_set st.bookings (objectIdVal booking_id) method hm
        refine ⟨i, hi, h1, ?_⟩
        simp only [hm, if_neg, h2]
        simp [hm]
    · rw [Bool.not_eq_true] at hv
      simp [pay, hv] at h

theorem c8_atomicity_witness :
    ((book { customer_name := "A", customer_email := "a@b.c", room_type := "Deluxe",
             guests := 1, check_in := 5, check_out := 5, payment_method := none }
        0 ⟨[], 0⟩).2 = ⟨[], 0⟩) ∧
    (∃ doc : BookingDoc,
      (book { customer_name := "A", customer_email := "a@b.c", room_type := "Deluxe",
              guests := 1, check_in := 0, check_out := 5, payment_method := none }
          0 ⟨[], 0⟩).2.bookings = ([] : List BookingDoc) ++ [doc]) ∧
    ((pay "Card" "zz" ⟨[], 0⟩).2 = ⟨[], 0⟩) ∧
    (∃ (i : Nat) (hi : i <
        (⟨[{ customer_name := "A", customer_email := "a@b.c", room_type := "Deluxe",
             guests := 1, check_in := 0, check_out := 1, payment_method := "Pending",
             status := "Booked", created_at := 0, _id := 0 }], 1⟩ :
          Store).bookings.length),
      ((⟨[{ customer_name := "A", customer_email := "a@b.c", room_type := "Deluxe",
            guests := 1, check_in := 0, check_out := 1, payment_method := "Pending",
            status := "Booked", created_at := 0, _id := 0 }], 1⟩ :
          Store).bookings.get ⟨i, hi⟩)._id =
        objectIdVal "000000000000000000000000" ∧
      (pay "Card" "000000000000000000000000"
          ⟨[{ customer_name := "A", customer_email := "a@b.c", room_type := "Deluxe",
              guests := 1, check_in := 0, check_out := 1, payment_method := "Pending",
              status := "Booked", created_at := 0, _id := 0 }], 1⟩).2 =
        ⟨(⟨[{ customer_name := "A", customer_email := "a@b.c", room_type := "Deluxe",
              guests := 1, check_in := 0, check_out := 1, payment_method := "Pending",
              status := "Booked", created_at := 0, _id := 0 }], 1⟩ :
            Store).bookings.set i
           { (⟨[{ customer_name := "A", customer_email := "a@b.c",
                  room_type := "Deluxe", guests := 1, check_in := 0, check_out := 1,
                  payment_method := "Pending", status := "Booked", created_at := 0,
                  _id := 0 }], 1⟩ : Store).bookings.get ⟨i, hi⟩ with
               payment_method := "Card", status := "Paid" },
         1⟩) :=
  ⟨c8_atomicity.1 _ 0 _ invalidDateRange rfl,
   c8_atomicity.2.1 _ 0 ⟨[], 0⟩ { booking_id := "0", status := "Booked" } rfl,
   c8_atomicity.2.2.1 "Card" "zz" ⟨[], 0⟩ invalidBookingId rfl,
   c8_atomicity.2.2.2 "Card" "000000000000000000000000" _
     { status := "Paid", booking_id := "000000000000000000000000", method := "Card" }
     rfl⟩

/-- C9: at the availability endpoint a capacity overflow (known room type,
ordered dates) is the successful response `available = false` with the
capacity reason, identical for every store — the bookings are never
consulted — while the same condition at `book` raises the CapacityExceeded
error. -/
theorem c9_capacity_divergence (room_type : String) (ci co guests : Int)
    (room : RoomType) (h1 : ci < co) (h2 : findRoom room_type = some room)
    (h3 : guests > room.capacity) :
    (∀ st : Store, availability room_type ci co guests st =
      .ok { available := false, reason := some "Exceeds capacity" }) ∧
    (∀ (st : Store) (now : Int) (body : BookingRequest),
      body.room_type = room_type → body.check_in = ci → body.check_out = co →
      body.guests = guests →
        book body now st = (.error exceedsCapacity, st)) := by
  constructor
  · intro st
    simp only [availability, h2]
    rw [if_neg (not_le.mpr h1), if_pos h3]
  · intro st now body hr hci hco hg
    exact book_capacity_exceeded body now st room
      (by rw [hci, hco]; exact h1) (by rw [hr]; exact h2) (by rw [hg]; exact h3)

theorem c9_capacity_divergence_witness :
    (availability "Deluxe" 0 5 3 ⟨[], 0⟩ =
      .ok { available := false, reason := some "Exceeds capacity" }) ∧
    (book { customer_name := "A", customer_email := "a@b.c", room_type := "Deluxe",
            guests := 3, check_in := 0, check_out := 5, payment_method := none }
      0 ⟨[], 0⟩ = (.error exceedsCapacity, ⟨[], 0⟩)) :=
  ⟨(c9_capacity_divergence "Deluxe" 0 5 3 (ROOM_TYPES.get ⟨0, by decide⟩)
      (by decide) (by decide) (by decide)).1 ⟨[], 0⟩,
   (c9_capacity_divergence "Deluxe" 0 5 3 (ROOM_TYPES.get ⟨0, by decide⟩)
      (by decide) (by decide) (by decide)).2 ⟨[], 0⟩ 0 _ rfl rfl rfl rfl⟩

/-- C10: `book` canonicalises the room-type spelling before any use: a
successful booking persists the catalog's canonical `type` string (not the
request's spelling), and a second request in any other casing of the same
room type resolves to the same catalog entry and is availability-checked
against the first booking, so overlapping dates fail with DateConflict. -/
theorem c10_case_normalisation (r1 r2 : BookingRequest) (now1 : Int) (st : Store)
    (room : RoomType)
    (h11 : r1.check_in < r1.check_out) (h12 : findRoom r1.room_type = some room)
    (h13 : r1.guests ≤ room.capacity)
    (h14 : is_available st room.type r1.check_in r1.check_out = true)
    (hcase : lower r2.room_type = lower r1.room_type)
    (h21 : r2.check_in < r2.check_out) (h23 : r2.guests ≤ room.capacity)
    (hov : r1.check_in < r2.check_out ∧ r1.check_out > r2.check_in) :
    ((book r1 now1 st).2.bookings.getLast? =
      some (newBookingDoc r1 room now1 st.nextId)) ∧
    (newBookingDoc r1 room now1 st.nextId).room_type = room.type ∧
    findRoom r2.room_type = some room ∧
    (∀ now2 : Int,
      book r2 now2 (book r1 now1 st).2 =
        (.error datesNotAvailable, (book r1 now1 st).2)) := by
  have hfr2 : findRoom r2.room_type = some room := by
    rw [findRoom] at h12 ⊢
    rw [hcase]
    exact h12
  have hb1 := book_ok r1 now1 st room h11 h12 h13 h14
  have hst2 : (book r1 now1 st).2.bookings =
      st.bookings ++ [newBookingDoc r1 room now1 st.nextId] := by
    rw [hb1]
  refine ⟨?_, rfl, hfr2, ?_⟩
  · rw [hst2, List.getLast?_concat]
  · intro now2
    apply book_date_conflict _ now2 _ room h21 hfr2 h23
    rw [Bool.eq_false_iff]
    intro hav
    rw [is_available_iff] at hav
    refine hav (newBookingDoc r1 room now1 st.nextId) ?_ rfl ⟨hov.1, hov.2⟩
    rw [hst2]
    exact List.mem_append_right _ (List.mem_singleton.mpr rfl)

theorem c10_case_normalisation_witness :
    ((book { customer_name := "A", customer_email := "a@b.c", room_type := "deluxe",
             guests := 2, check_in := 0, check_out := 5, payment_method := none }
        0 ⟨[], 0⟩).2.bookings.getLast? =
      some (newBookingDoc
        { customer_name := "A", customer_email := "a@b.c", room_type := "deluxe",
          guests := 2, check_in := 0, check_out := 5, payment_method := none }
        (ROOM_TYPES.get ⟨0, by decide⟩) 0 0)) ∧
    (newBookingDoc
        { customer_name := "A", customer_email := "a@b.c", room_type := "deluxe",
          guests := 2, check_in := 0, check_out := 5, payment_method := none }
        (ROOM_TYPES.get ⟨0, by decide⟩) 0 0).room_type =
      (ROOM_TYPES.get ⟨0, by decide⟩).type ∧
    findRoom "DELUXE" = some (ROOM_TYPES.get ⟨0, by decide⟩) ∧
    (∀ now2 : Int,
      book { customer_name := "B", customer_email := "b@b.c", room_type := "DELUXE",
             guests := 1, check_in := 3, check_out := 7, payment_method := none }
        now2
        (book { customer_name := "A", customer_email := "a@b.c",
                room_type := "deluxe", guests := 2, check_in := 0, check_out := 5,
                payment_method := none } 0 ⟨[], 0⟩).2 =
        (.error datesNotAvailable,
         (book { customer_name := "A", customer_email := "a@b.c",
                 room_type := "deluxe", guests := 2, check_in := 0, check_out := 5,
                 payment_method := none } 0 ⟨[], 0⟩).2)) :=
  c10_case_normalisation
    { customer_name := "A", customer_email := "a@b.c", room_type := "deluxe",
      guests := 2, check_in := 0, check_out := 5, payment_method := none }
    { customer_name := "B", customer_email := "b@b.c", room_type := "DELUXE",
      guests := 1, check_in := 3, check_out := 7, payment_method := none }
    0 ⟨[], 0⟩ (ROOM_TYPES.get ⟨0, by decide⟩)
    (by decide) (by decide) (by decide) (by decide) (by decide) (by decide)
    (by decide) ⟨by decide, by decide⟩

end Hotel
